import Mathlib

/-!
# Verification of the PostBOUND Postgres plan-translation layer

This development gives a shallow embedding of the bidirectional plan-translation
layer of PostBOUND's Postgres backend (`postbound/db/postgres.py`): the hint
emitter and join-direction resolver that compile an abstract plan into
pg_hint_plan hints, the native `EXPLAIN` plan normalizer, and the GeQO
optimizer-mode guard around query execution.  Python floats are modelled by an
explicit type with NaN and infinities over the rationals; fallible code returns
`Except`; dictionaries with insertion order become association lists.
-/

namespace PostBound

/-- Physical join operators (`physops.JoinOperators`).  The `physops` module is
not part of the available sources; the enumeration is reconstructed from its
uses in `postgres.py` (the static tables `PostgresOptimizerSettings`,
`PostgresExplainJoinNodes`, ...). -/
inductive JoinOperator where
  | nestedLoopJoin
  | hashJoin
  | sortMergeJoin
  deriving DecidableEq, Repr

/-- Physical scan operators (`physops.ScanOperators`), reconstructed like
`JoinOperator`. -/
inductive ScanOperator where
  | sequentialScan
  | indexScan
  | indexOnlyScan
  | bitmapScan
  deriving DecidableEq, Repr

/-- A physical operator is either a join or a scan operator
(`physops.PhysicalOperator`). -/
inductive PhysOperator where
  | joinOp (j : JoinOperator)
  | scanOp (s : ScanOperator)
  deriving DecidableEq, Repr

/-- Modelled from the spec: a table identifier is "an opaque, hashable handle
naming a base relation (optionally aliased).  Equality and ordering are by
identity of name+alias" (`base.TableReference`, whose source is not included).
`identifier()` renders the alias when present and the full name otherwise. -/
structure TableReference where
  full_name : String
  alias_name : String
  deriving DecidableEq, Repr

/-- Modelled from the spec: the rendered identifier of a table reference. -/
def TableReference.identifier (t : TableReference) : String :=
  if t.alias_name = "" then t.full_name else t.alias_name

/-- Python float values as they occur in this layer: NaN, the two infinities
and finite rationals.  All operations below implement the IEEE behaviour for
exactly the operations the source performs on these values. -/
inductive PgFloat where
  | nan
  | inf
  | neginf
  | val (q : ℚ)
  deriving DecidableEq, Repr

namespace PgFloat

/-- `math.isfinite` -/
def isFinite : PgFloat → Bool
  | val _ => true
  | _ => false

/-- The `<` comparison on Python floats (NaN compares false to everything). -/
def lt : PgFloat → PgFloat → Bool
  | nan, _ => false
  | _, nan => false
  | neginf, neginf => false
  | neginf, _ => true
  | _, neginf => false
  | inf, _ => false
  | val _, inf => true
  | val p, val q => p < q

/-- Division by the constant 1000 (used for the ms→s conversion). -/
def div1000 : PgFloat → PgFloat
  | nan => nan
  | inf => inf
  | neginf => neginf
  | val q => val (q / 1000)

/-- Adding the constant 1 (used for the coordinating-worker adjustment). -/
def add1 : PgFloat → PgFloat
  | nan => nan
  | inf => inf
  | neginf => neginf
  | val q => val (q + 1)

/-- Multiplication by a finite rational (used for `true_cardinality * loops`;
the loop count always comes from a JSON number and is therefore finite). -/
def mulQ : PgFloat → ℚ → PgFloat
  | nan, _ => nan
  | inf, q => if q > 0 then inf else if q < 0 then neginf else nan
  | neginf, q => if q > 0 then neginf else if q < 0 then inf else nan
  | val p, q => val (p * q)

end PgFloat

/-- `HintParts`: the two ordered, duplicate-free fragment sequences produced by
the hint emitters (`postgres.py`, class `HintParts`). -/
structure HintParts where
  settings : List String
  hints : List String
  deriving DecidableEq, Repr

/-- `HintParts.empty`: a fresh hint parts object without any contents. -/
def HintParts.empty : HintParts := ⟨[], []⟩

/-- `HintParts.merge_with`: combines two fragment collections, appending only
those elements of `other` that are not already present. -/
def HintParts.merge_with (self other : HintParts) : HintParts :=
  let merged_settings := self.settings ++ other.settings.filter (fun s => s ∉ self.settings)
  let merged_hints := self.hints ++ other.hints.filter (fun h => h ∉ self.hints)
  ⟨merged_settings, merged_hints⟩

/-- `PostgresOptimizerSettings`: the static operator → session-setting table. -/
def PostgresOptimizerSettings : PhysOperator → String
  | .joinOp .nestedLoopJoin => "enable_nestloop"
  | .joinOp .hashJoin => "enable_hashjoin"
  | .joinOp .sortMergeJoin => "enable_mergejoin"
  | .scanOp .sequentialScan => "enable_seqscan"
  | .scanOp .indexScan => "enable_indexscan"
  | .scanOp .indexOnlyScan => "enable_indexonlyscan"
  | .scanOp .bitmapScan => "enable_bitmapscan"

/-- `PostgresOptimizerHints`: the static operator → pg_hint_plan verb table.
The source maps `ScanOperators.IndexScan` to the verb `"IndexOnlyScan"`
(postgres.py line 1281); this is kept verbatim here. -/
def PostgresOptimizerHints : PhysOperator → String
  | .joinOp .nestedLoopJoin => "NestLoop"
  | .joinOp .hashJoin => "HashJoin"
  | .joinOp .sortMergeJoin => "MergeJoin"
  | .scanOp .sequentialScan => "SeqScan"
  | .scanOp .indexScan => "IndexOnlyScan"
  | .scanOp .indexOnlyScan => "IndexOnlyScan"
  | .scanOp .bitmapScan => "BitmapScan"

/-- A per-join operator selection (`physops.JoinOperatorAssignment`, modelled
from the spec since `physops` is not among the sources): the chosen operator,
together with the explicit inner table set when the assignment is a
`DirectionalJoinOperatorAssignment`. -/
structure JoinOperAssign where
  operator : JoinOperator
  inner : Option (Finset TableReference)
  deriving DecidableEq

/-- A per-scan operator selection (`physops.ScanOperatorAssignment`, modelled
from the spec). -/
structure ScanOperAssign where
  operator : ScanOperator
  deriving DecidableEq

/-- Modelled from the spec: `physops.PhysicalOperatorAssignment` — "three maps:
`scan_operators`, `join_operators` (optionally directional), `global_settings`;
keys are unique; map iteration order is insertion order".  The maps become
association lists. -/
structure PhysicalOperatorAssignment where
  scan_operators : List (TableReference × ScanOperAssign)
  join_operators : List (Finset TableReference × JoinOperAssign)
  global_settings : List (PhysOperator × Bool)

/-- Modelled from the spec: the per-join lookup `operator_assignment[tables]`
used by `_is_hash_join`, keyed by the node's table set. -/
def PhysicalOperatorAssignment.lookupJoin (oa : PhysicalOperatorAssignment)
    (tables : Finset TableReference) : Option JoinOperAssign :=
  (oa.join_operators.find? (fun e => e.1 = tables)).map (·.2)

/-- Modelled from the spec: `get_globally_enabled_operators` — the operators
whose `global_settings` flag is enabled (a set in Python; deduplicated here). -/
def PhysicalOperatorAssignment.globallyEnabled (oa : PhysicalOperatorAssignment) :
    List PhysOperator :=
  ((oa.global_settings.filter (fun e => e.2)).map (·.1)).dedup

/-- The set comprehension in `_is_hash_join`: the globally enabled operators
restricted to join operators. -/
def PhysicalOperatorAssignment.globalJoinOps (oa : PhysicalOperatorAssignment) :
    List JoinOperator :=
  oa.globallyEnabled.filterMap (fun op => match op with
    | .joinOp j => some j
    | .scanOp _ => none)

end PostBound

namespace PostBound

/-- The annotations a join-tree node can carry, reconstructed from the
`isinstance` checks in `postgres.py`: either nothing, a
`physops.JoinOperatorAssignment` (directional when it carries an `inner` table
set), or a `jointree.PhysicalJoinMetadata` whose `operator` is an optional
join-operator assignment. -/
inductive JoinAnnot where
  | noAnnot
  | operAssign (a : JoinOperAssign)
  | physMeta (op : Option JoinOperAssign)
  deriving DecidableEq

/-- Modelled from the spec: a join-tree node (`jointree.AbstractJoinTreeNode`,
whose source is not included) — "tagged variant {BaseTable(table),
IntermediateJoin(left, right, annotation?)}".  Every node additionally carries
the cardinality estimate that `_generate_leading_hint_content` reads via
`.cardinality` (NaN when no estimate is known). -/
inductive JoinTreeNode where
  | base (table : TableReference) (card : PgFloat)
  | join (left right : JoinTreeNode) (annot : JoinAnnot) (card : PgFloat)
  deriving DecidableEq

namespace JoinTreeNode

/-- Modelled from the spec: `tables()` — "the set of tables a node spans
(leaf: singleton; interior: union of children)". -/
def tables : JoinTreeNode → Finset TableReference
  | base t _ => {t}
  | join l r _ _ => l.tables ∪ r.tables

/-- The `.cardinality` attribute of a join-tree node. -/
def cardinality : JoinTreeNode → PgFloat
  | base _ c => c
  | join _ _ _ c => c

/-- The `.annotation` attribute of a join-tree node (`noAnnot` for leaves). -/
def nodeAnnot : JoinTreeNode → JoinAnnot
  | base _ _ => .noAnnot
  | join _ _ a _ => a

end JoinTreeNode

/-- `_is_hash_join` (postgres.py lines 1100-1120): decides whether a join node
should be executed as a hash join, in priority order per-join assignment,
"sole globally enabled join operator", then the node's own annotation. -/
def isHashJoin (join_tree_node : JoinTreeNode)
    (operator_assignment : Option PhysicalOperatorAssignment) : Bool :=
  match operator_assignment with
  | some oa =>
    match oa.lookupJoin join_tree_node.tables with
    | some selected_operator => selected_operator.operator = .hashJoin
    | none =>
      let global_join_ops := oa.globalJoinOps
      global_join_ops.length = 1 && JoinOperator.hashJoin ∈ global_join_ops
  | none =>
    match join_tree_node.nodeAnnot with
    | .physMeta op =>
      match op with
      | some a => a.operator = .hashJoin
      | none => false
    | _ => false

/-- The direction selection of `_generate_leading_hint_content` (postgres.py
lines 1185-1208), expressed as "is the left child the inner relation?".  The
three branches mirror the source: (1) a `DirectionalJoinOperatorAssignment`
annotation names the inner table set, with the roles swapped for hash joins;
(2) with finite cardinality estimates on both children the direction is picked
by comparing the estimates (one comparison for the hash-join case, the mirrored
comparison otherwise); (3) otherwise the right child is the inner relation. -/
def innerIsLeft (node : JoinTreeNode)
    (operator_assignment : Option PhysicalOperatorAssignment) : Bool :=
  match node with
  | .base _ _ => false
  | .join left right annot _ =>
    match annot with
    | .operAssign a =>
      match a.inner with
      | some inner_tables =>
        -- inner_child = left iff left.tables() == inner_tables, then swap for hash joins
        let inner_left := left.tables = inner_tables
        if a.operator = .hashJoin then !inner_left else inner_left
      | none => cardinalityDirection left right node operator_assignment
    | _ => cardinalityDirection left right node operator_assignment

where
  /-- Branches (2) and (3): the cardinality-based direction selection. -/
  cardinalityDirection (left right node : JoinTreeNode)
      (operator_assignment : Option PhysicalOperatorAssignment) : Bool :=
    let has_left_bound := left.cardinality.isFinite
    let has_right_bound := right.cardinality.isFinite
    if !has_left_bound || !has_right_bound then
      false  -- inner_child, outer_child = right, left
    else if isHashJoin node operator_assignment then
      -- inner_child, outer_child = (left, right) if left.cardinality < right.cardinality else (right, left)
      PgFloat.lt left.cardinality right.cardinality
    else
      -- inner_child, outer_child = (right, left) if right.cardinality < left.cardinality else (left, right)
      !(PgFloat.lt right.cardinality left.cardinality)

/-- `_generate_leading_hint_content` (postgres.py lines 1175-1212): renders a
join (sub-)tree as the nested content of a `Leading` hint.  Leaves render as
their identifier; an interior node resolves its join direction (see
`innerIsLeft`) and renders `"(outer inner)"`.  The `ValueError` branch of the
source is unreachable here because the node type is exactly the two-variant
inductive. -/
def generateLeadingHintContent (join_tree_node : JoinTreeNode)
    (operator_assignment : Option PhysicalOperatorAssignment) : String :=
  match join_tree_node with
  | .base t _ => t.identifier
  | .join left right annot card =>
    let left_hint := generateLeadingHintContent left operator_assignment
    let right_hint := generateLeadingHintContent right operator_assignment
    let inner_left := innerIsLeft (.join left right annot card) operator_assignment
    let inner_hint := if inner_left then left_hint else right_hint
    let outer_hint := if inner_left then right_hint else left_hint
    "(" ++ outer_hint ++ " " ++ inner_hint ++ ")"

/-- Modelled from the spec: a logical join tree / physical query plan
(`jointree.LogicalJoinTree`) as consumed by `_generate_pg_join_order_hint`:
a root node, with `len(join_order)` being the number of tables it spans. -/
structure LogicalJoinTree where
  root : JoinTreeNode

/-- Modelled from the spec: `len(join_order)`, the number of spanned tables. -/
def LogicalJoinTree.length (jt : LogicalJoinTree) : ℕ := jt.root.tables.card

/-- Modelled from the spec: an SQL query is treated as an opaque value by the
join-order hint generation; only its identity matters here. -/
structure SqlQuery where
  text : String
  deriving DecidableEq

/-- `_generate_pg_join_order_hint` (postgres.py lines 1257-1262): the full
`Leading(...)` hint for a query, or no hint at all for join orders spanning
fewer than two tables. -/
def generatePgJoinOrderHint (query : SqlQuery) (join_order : LogicalJoinTree)
    (operator_assignment : Option PhysicalOperatorAssignment := none) :
    SqlQuery × Option HintParts :=
  if join_order.length < 2 then (query, none)
  else
    let leading_hint := generateLeadingHintContent join_order.root operator_assignment
    let leading_hint := "Leading(" ++ leading_hint ++ ")"
    (query, some ⟨[], [leading_hint]⟩)

end PostBound

namespace PostBound

/-- `_generate_join_key` (postgres.py line 1310): the space-joined identifiers
of a join's tables.  The Python version iterates a set; here the iteration
order is made explicit by passing the tables as a list. -/
def generateJoinKey (tables : List TableReference) : String :=
  String.intercalate " " (tables.map (·.identifier))

/-- `_generate_pg_operator_hints` (postgres.py lines 1332-1354): global
operator settings, per-scan hints, a blank separator line when scan hints were
emitted, and per-join hints.  The join keys are rendered from the explicit
table list carried with each join entry (see `generateJoinKey`). -/
def generatePgOperatorHints
    (global_settings : List (PhysOperator × Bool))
    (scan_operators : List (TableReference × ScanOperAssign))
    (join_operators : List (List TableReference × JoinOperAssign)) : HintParts :=
  let settings := global_settings.map (fun e =>
    let setting := if e.2 then "on" else "off"
    let operator_key := PostgresOptimizerSettings e.1
    "SET " ++ operator_key ++ " = '" ++ setting ++ "';")
  let scan_hints := scan_operators.map (fun e =>
    let table_key := e.1.identifier
    let scan_verb := PostgresOptimizerHints (.scanOp e.2.operator)
    scan_verb ++ "(" ++ table_key ++ ")")
  -- insert empty hint to force empty line between scan and join operators
  let scan_hints := if scan_hints ≠ [] then scan_hints ++ [""] else scan_hints
  let join_hints := join_operators.map (fun e =>
    let join_key := generateJoinKey e.1
    let join_verb := PostgresOptimizerHints (.joinOp e.2.operator)
    join_verb ++ "(" ++ join_key ++ ")")
  let hints := scan_hints ++ join_hints
  if settings = [] ∧ hints = [] then HintParts.empty
  else ⟨settings, hints⟩

/-- A Python value as passed to `_escape_setting`: a boolean, an integer, a
float or a string.  `pyIsNumInstance` reflects `isinstance(x, float) or
isinstance(x, int)` — in Python, `bool` is a subclass of `int`, so booleans
satisfy this check. -/
inductive PyValue where
  | pyBool (b : Bool)
  | pyInt (n : ℤ)
  | pyFloat (q : ℚ)
  | pyStr (s : String)
  deriving DecidableEq

/-- `isinstance(setting, float) or isinstance(setting, int)`: true for floats,
ints and — because `bool` subclasses `int` — booleans. -/
def PyValue.pyIsNumInstance : PyValue → Bool
  | .pyBool _ => true
  | .pyInt _ => true
  | .pyFloat _ => true
  | .pyStr _ => false

/-- `isinstance(setting, bool)`. -/
def PyValue.pyIsBoolInstance : PyValue → Bool
  | .pyBool _ => true
  | _ => false

/-- Python's `str()` on such a value.  The decimal rendering of a float is
abstracted by the rational's canonical representation; no claim below depends
on the exact digit sequence. -/
def PyValue.pyStrOf : PyValue → String
  | .pyBool b => if b then "True" else "False"
  | .pyInt n => toString n
  | .pyFloat q => toString q
  | .pyStr s => s

/-- `_escape_setting` (postgres.py lines 1381-1385): numbers (which in Python
include booleans, making the dedicated boolean branch unreachable) render via
`str()`, the remaining values are single-quoted. -/
def escapeSetting (setting : PyValue) : String :=
  if setting.pyIsNumInstance then setting.pyStrOf
  else if setting.pyIsBoolInstance then (match setting with
    | .pyBool b => if b then "TRUE" else "FALSE"
    | _ => "")
  else "'" ++ setting.pyStrOf ++ "'"

/-- Modelled from the spec: `planparams.PlanParameterization` — "three maps:
`cardinality_hints: TableSet(≥2) → estimate`, `parallel_worker_hints:
TableSet(==1) → worker count`, `system_specific_settings: key → value`"
(the `planparams` module is not among the sources).  Table sets are carried as
explicit lists to fix the iteration order. -/
structure PlanParameterization where
  cardinality_hints : List (List TableReference × ℤ)
  parallel_worker_hints : List (List TableReference × ℤ)
  system_specific_settings : List (String × PyValue)

/-- `_generate_pg_parameter_hints` (postgres.py lines 1415-1436): `Rows` hints
for joins of at least two tables, `Parallel` hints for single tables, and a
`SET` fragment per system-specific setting; hints for unsupported shapes are
skipped (with a warning in the source). -/
def generatePgParameterHints (plan_parameters : PlanParameterization) : HintParts :=
  let hints₁ := plan_parameters.cardinality_hints.filterMap (fun e =>
    if e.1.length < 2 then none  -- pg_hint_plan can only generate cardinality hints for joins
    else some ("Rows(" ++ generateJoinKey e.1 ++ " #" ++ toString e.2 ++ ")"))
  let hints₂ := plan_parameters.parallel_worker_hints.filterMap (fun e =>
    if e.1.length ≠ 1 then none  -- pg_hint_plan can only generate parallelization hints for single tables
    else some ("Parallel(" ++ generateJoinKey e.1 ++ " " ++ toString e.2 ++ " hard)"))
  let settings := plan_parameters.system_specific_settings.map (fun e =>
    "SET " ++ e.1 ++ " = " ++ escapeSetting e.2 ++ ";")
  ⟨settings, hints₁ ++ hints₂⟩

end PostBound

namespace PostBound

/-- `PostgresExplainJoinNodes` (postgres.py lines 2036-2038): EXPLAIN node
names of join operators. -/
def PostgresExplainJoinNodes : String → Option JoinOperator := fun s =>
  if s = "Nested Loop" then some .nestedLoopJoin
  else if s = "Hash Join" then some .hashJoin
  else if s = "Merge Join" then some .sortMergeJoin
  else none

/-- `PostgresExplainScanNodes` (postgres.py lines 2041-2044): EXPLAIN node
names of scan operators. -/
def PostgresExplainScanNodes : String → Option ScanOperator := fun s =>
  if s = "Seq Scan" then some .sequentialScan
  else if s = "Index Scan" then some .indexScan
  else if s = "Index Only Scan" then some .indexOnlyScan
  else if s = "Bitmap Heap Scan" then some .bitmapScan
  else none

/-- The raw JSON record of one EXPLAIN node, with every field optional exactly
as `dict.get` sees it.  JSON numbers are finite, hence plain rationals. -/
structure ExplainFields where
  nodeType : Option String := none
  totalCost : Option ℚ := none
  planRows : Option ℚ := none
  actualTotalTime : Option ℚ := none
  actualRows : Option ℚ := none
  actualLoops : Option ℚ := none
  relationName : Option String := none
  aliasName : Option String := none
  indexName : Option String := none
  filterCond : Option String := none
  indexCond : Option String := none
  joinFilter : Option String := none
  hashCond : Option String := none
  recheckCond : Option String := none
  parentRelationship : Option String := none
  workersLaunched : Option ℚ := none
  sharedReadBlocks : Option ℚ := none
  sharedHitBlocks : Option ℚ := none
  tempReadBlocks : Option ℚ := none
  tempWrittenBlocks : Option ℚ := none
  deriving DecidableEq

/-- A raw EXPLAIN tree: the scalar record plus the `"Plans"` child list. -/
inductive ExplainData where
  | mk (fields : ExplainFields) (plans : List ExplainData)

/-- The scalar attributes computed by `PostgresExplainNode.__init__`
(postgres.py lines 2129-2154): every `dict.get` default is made explicit.
Missing numbers default to NaN, the loop count to `1`; the reported time is
divided by 1000 (with `nan / 1000 == nan` when the field is absent). -/
structure PgExplainInfo where
  node_type : Option String
  cost : PgFloat
  cardinality_estimate : PgFloat
  execution_time : PgFloat
  true_cardinality : PgFloat
  loops : ℚ
  relation_name : Option String
  relation_alias : Option String
  index_name : Option String
  filter_condition : Option String
  index_condition : Option String
  join_filter : Option String
  hash_condition : Option String
  recheck_condition : Option String
  parent_relationship : Option String
  parallel_workers : PgFloat
  shared_blocks_read : PgFloat
  shared_blocks_cached : PgFloat
  temp_blocks_read : PgFloat
  temp_blocks_written : PgFloat
  deriving DecidableEq

/-- The field extraction of `PostgresExplainNode.__init__`. -/
def mkExplainInfo (d : ExplainFields) : PgExplainInfo where
  node_type := d.nodeType
  cost := (d.totalCost.map PgFloat.val).getD .nan
  cardinality_estimate := (d.planRows.map PgFloat.val).getD .nan
  execution_time := ((d.actualTotalTime.map PgFloat.val).getD .nan).div1000
  true_cardinality := (d.actualRows.map PgFloat.val).getD .nan
  loops := d.actualLoops.getD 1
  relation_name := d.relationName
  relation_alias := d.aliasName
  index_name := d.indexName
  filter_condition := d.filterCond
  index_condition := d.indexCond
  join_filter := d.joinFilter
  hash_condition := d.hashCond
  recheck_condition := d.recheckCond
  parent_relationship := d.parentRelationship
  parallel_workers := (d.workersLaunched.map PgFloat.val).getD .nan
  shared_blocks_read := (d.sharedReadBlocks.map PgFloat.val).getD .nan
  shared_blocks_cached := (d.sharedHitBlocks.map PgFloat.val).getD .nan
  temp_blocks_read := (d.tempReadBlocks.map PgFloat.val).getD .nan
  temp_blocks_written := (d.tempWrittenBlocks.map PgFloat.val).getD .nan

/-- `PostgresExplainNode`: the parsed node — its scalar attributes together
with the recursively parsed children. -/
inductive PgExplainNode where
  | mk (info : PgExplainInfo) (children : List PgExplainNode)

/-- The scalar attributes of a parsed node. -/
def PgExplainNode.info : PgExplainNode → PgExplainInfo
  | .mk i _ => i

/-- The children of a parsed node. -/
def PgExplainNode.children : PgExplainNode → List PgExplainNode
  | .mk _ cs => cs

/-- The recursive part of `PostgresExplainNode.__init__`:
`self.children = [PostgresExplainNode(child) for child in ...get("Plans", [])]`. -/
def parseExplainNode : ExplainData → PgExplainNode
  | .mk fields plans => .mk (mkExplainInfo fields) (plans.attach.map (fun c => parseExplainNode c.1))
decreasing_by
  have := List.sizeOf_lt_of_mem c.2
  simp only [ExplainData.mk.sizeOf_spec]
  omega

/-- `PostgresExplainNode.is_scan` (postgres.py line 2171): membership of the
node type in the scan table (`None` is in neither table). -/
def PgExplainNode.is_scan (n : PgExplainNode) : Bool :=
  match n.info.node_type with
  | some s => (PostgresExplainScanNodes s).isSome
  | none => false

/-- `PostgresExplainNode.is_join` (postgres.py line 2181). -/
def PgExplainNode.is_join (n : PgExplainNode) : Bool :=
  match n.info.node_type with
  | some s => (PostgresExplainJoinNodes s).isSome
  | none => false

/-- `PostgresExplainNode.parse_table` (postgres.py lines 2247-2250): `None`
for a falsy relation name, otherwise a table reference from name and alias. -/
def PgExplainNode.parse_table (n : PgExplainNode) : Option TableReference :=
  match n.info.relation_name with
  | none => none
  | some name =>
    if name = "" then none
    else some ⟨name, n.info.relation_alias.getD ""⟩

end PostBound

namespace PostBound

/-- Modelled from the spec: the scalar part of the backend-independent
normalized plan node (`db.QueryExecutionPlan`, whose source is not included):
"operator-kind variant {Scan, Join, Other}, optional table, cost,
estimated/true cardinality, execution time, cached/scanned page counts,
parallel worker count".  The fields mirror the constructor call in
`as_query_execution_plan`. -/
structure QepInfo where
  node_type : Option String
  is_join : Bool
  is_scan : Bool
  table : Option TableReference
  parallel_workers : PgFloat
  cost : PgFloat
  estimated_cardinality : PgFloat
  true_cardinality : PgFloat
  execution_time : PgFloat
  cached_pages : PgFloat
  scanned_pages : PgFloat
  physical_operator : Option PhysOperator
  deriving DecidableEq

/-- Modelled from the spec: the normalized plan node with its ordered children
and the distinguished `inner_child` reference. -/
inductive QueryExecutionPlan where
  | mk (info : QepInfo) (children : Option (List QueryExecutionPlan))
       (inner_child : Option QueryExecutionPlan)

/-- The scalar part of a normalized plan node. -/
def QueryExecutionPlan.info : QueryExecutionPlan → QepInfo
  | .mk i _ _ => i

/-- The distinguished inner child of a normalized plan node. -/
def QueryExecutionPlan.inner_child : QueryExecutionPlan → Option QueryExecutionPlan
  | .mk _ _ ic => ic

/-- The ordered children of a normalized plan node. -/
def QueryExecutionPlan.children : QueryExecutionPlan → Option (List QueryExecutionPlan)
  | .mk _ cs _ => cs

/-- The scalar computations of `as_query_execution_plan` (postgres.py lines
2287-2305): table parsing, classification, the `+ 1` coordinating-worker
adjustment, the `true_cardinality * loops` correction and the operator
resolution through the two static EXPLAIN tables. -/
def mkQepInfo (n : PgExplainNode) : QepInfo where
  node_type := n.info.node_type
  is_join := n.is_join
  is_scan := n.is_scan
  table := n.parse_table
  parallel_workers := n.info.parallel_workers.add1  -- in Postgres the control worker also processes input
  cost := n.info.cost
  estimated_cardinality := n.info.cardinality_estimate
  true_cardinality := n.info.true_cardinality.mulQ n.info.loops
  execution_time := n.info.execution_time
  cached_pages := n.info.shared_blocks_cached
  scanned_pages := n.info.shared_blocks_read
  physical_operator :=
    if n.is_scan then (n.info.node_type.bind PostgresExplainScanNodes).map .scanOp
    else if n.is_join then (n.info.node_type.bind PostgresExplainJoinNodes).map .joinOp
    else none

/-- `PostgresExplainNode.as_query_execution_plan` (postgres.py lines
2272-2305): more than two children is a fatal structural error; one child is
normalized without an inner/outer distinction; with exactly two children the
first child becomes the inner child precisely when its parent-relationship tag
is `"Inner"` and the node is not a `"Hash Join"`, otherwise the second child
does. -/
def asQueryExecutionPlan : PgExplainNode → Except String QueryExecutionPlan
  | .mk info children =>
    match children with
    | [] => .ok (.mk (mkQepInfo (.mk info [])) none none)
    | [child] => do
      let child_plan ← asQueryExecutionPlan child
      .ok (.mk (mkQepInfo (.mk info [child])) (some [child_plan]) none)
    | [first_child, second_child] => do
      let first_plan ← asQueryExecutionPlan first_child
      let second_plan ← asQueryExecutionPlan second_child
      let inner_child :=
        if first_child.info.parent_relationship = some "Inner" ∧ info.node_type ≠ some "Hash Join"
        then first_plan else second_plan
      .ok (.mk (mkQepInfo (.mk info [first_child, second_child]))
            (some [first_plan, second_plan]) (some inner_child))
    | _ => .error "Cannot transform parent node > 2 children"

mutual

/-- `PostgresExplainNode.__eq__` (postgres.py lines 2330-2333): the partial
value equality comparing only node type, relation name, relation alias and,
recursively, the children. -/
def pgNodeEq : PgExplainNode → PgExplainNode → Bool
  | .mk i1 cs1, .mk i2 cs2 =>
    i1.node_type = i2.node_type && i1.relation_name = i2.relation_name
      && i1.relation_alias = i2.relation_alias && pgNodeListEq cs1 cs2

/-- Python's elementwise `==` on child lists, using `pgNodeEq`. -/
def pgNodeListEq : List PgExplainNode → List PgExplainNode → Bool
  | [], [] => true
  | a :: as, b :: bs => pgNodeEq a b && pgNodeListEq as bs
  | _, _ => false

end

/-- `PostgresExplainNode.inner_outer_children` (postgres.py lines 2230-2237):
fewer than two children are returned as-is; for two children the one whose
parent-relationship tag is `"Inner"` comes first (the first child wins when
both or neither carry the tag), followed by the other child (compared with the
partial `__eq__` above). -/
def innerOuterChildren (n : PgExplainNode) : List PgExplainNode :=
  match n.children with
  | [first_child, second_child] =>
    let inner_child :=
      if first_child.info.parent_relationship = some "Inner" then first_child else second_child
    let outer_child := if pgNodeEq second_child inner_child then first_child else second_child
    [inner_child, outer_child]
  | cs => cs

end PostBound

namespace PostBound

/-- `clauses.Hint` (qal/clauses.py lines 48-50): preparatory statements and the
hint block text, both plain strings defaulting to `""`. -/
structure HintClause where
  preparatory_statements : String := ""
  query_hints : String := ""
  deriving DecidableEq

/-- The aspects of an SQL query that the GeQO guard inspects: its optional
hint clause and `len(query.tables())`. -/
structure PgQuery where
  hints : Option HintClause
  numTables : ℕ
  deriving DecidableEq

/-- `_GeQOState` (postgres.py lines 43-55): the tracked snapshot of the GeQO
configuration. -/
structure GeqoState where
  enabled : Bool
  threshold : ℕ
  deriving DecidableEq

/-- `_GeQOState.triggers_geqo` (postgres.py line 77): GeQO activates when it is
enabled and the query joins at least `threshold` tables. -/
def GeqoState.triggersGeqo (st : GeqoState) (query : PgQuery) : Bool :=
  st.enabled && query.numTables ≥ st.threshold

/-- `_query_contains_geqo_sensible_settings` (postgres.py line 311): the query
carries a hint clause with a non-empty hint block. -/
def queryContainsGeqoSensibleSettings (query : PgQuery) : Bool :=
  match query.hints with
  | none => false
  | some h => h.query_hints ≠ ""

/-- Whether `needle` starts the list `hay` (elementwise). -/
def startsWithSeq : List Char → List Char → Bool
  | [], _ => true
  | _ :: _, [] => false
  | a :: as, b :: bs => a = b && startsWithSeq as bs

/-- Python's `in` on strings: whether `needle` occurs as a contiguous
subsequence of `hay`. -/
def hasSubSeq (needle : List Char) : List Char → Bool
  | [] => startsWithSeq needle []
  | hay@(_ :: rest) => startsWithSeq needle hay || hasSubSeq needle rest

/-- `_modifies_geqo_config` (postgres.py lines 328-330): a query with a
non-empty preparatory statement that mentions `geqo` (case-insensitively). -/
def modifiesGeqoConfig (query : PgQuery) : Bool :=
  match query.hints with
  | none => false
  | some h =>
    if h.preparatory_statements = "" then false
    else hasSubSeq "geqo".data h.preparatory_statements.toLower.data

/-- A GeQO-related session directive issued to the backend. -/
inductive GeqoDirective where
  | setGeqo (enabled : Bool)
  | setGeqoThreshold (t : ℕ)
  deriving DecidableEq

/-- The GeQO part of `_prepare_query_execution` (postgres.py lines 628-630):
a forced-disable directive is issued when the query has hints that GeQO would
overwrite, does not itself reconfigure GeQO, and GeQO would trigger. -/
def prepareQueryGeqoDirectives (tracked : GeqoState) (query : PgQuery) : List GeqoDirective :=
  let requires_geqo_deactivation :=
    queryContainsGeqoSensibleSettings query && !(modifiesGeqoConfig query)
  if requires_geqo_deactivation && tracked.triggersGeqo query then
    [.setGeqo false]
  else []

/-- `_restore_geqo_state` (postgres.py lines 678-682): both the enabled flag
and the threshold are re-issued from the tracked snapshot. -/
def restoreGeqoStateDirectives (tracked : GeqoState) : List GeqoDirective :=
  [.setGeqo tracked.enabled, .setGeqoThreshold tracked.threshold]

/-- Whether the query execution raised a database error. -/
inductive QueryOutcome where
  | success
  | failure
  deriving DecidableEq

/-- The GeQO directives issued along one `execute_query` call (postgres.py
lines 399-420): preparation always runs first; on a cache hit the cursor is
never touched again; otherwise the restore directives are issued after a
successful execution only — the two `except` blocks re-raise without reaching
`_restore_geqo_state`, and there is no `finally`.  The query's own preparatory
statements (arbitrary SQL executed inside `_prepare_query_execution`) are not
part of this directive list. -/
def executeQueryGeqoDirectives (tracked : GeqoState) (query : PgQuery)
    (cache_enabled : Bool) (cache_hit : Bool) (outcome : QueryOutcome) : List GeqoDirective :=
  let prep := prepareQueryGeqoDirectives tracked query
  if cache_enabled && cache_hit then prep
  else
    match outcome with
    | .success => prep ++ restoreGeqoStateDirectives tracked
    | .failure => prep

end PostBound

namespace PostBound

/-- The characters that structure a `Leading` hint: parentheses and the blank
separating the two join partners. -/
def isFence (c : Char) : Bool := c = '(' || c = ')' || c = ' '

/-- Splits a character list into maximal runs of non-fence characters;
`cur` is the reversed word currently being read. -/
def wordsAux : List Char → List Char → List String
  | cur, [] => if cur = [] then [] else [String.mk cur.reverse]
  | cur, c :: cs =>
    if isFence c then
      if cur = [] then wordsAux [] cs else String.mk cur.reverse :: wordsAux [] cs
    else wordsAux (c :: cur) cs

/-- The maximal words (identifier occurrences) of a rendered hint string. -/
def words (s : String) : List String := wordsAux [] s.data

/-- The number of interior (join) nodes of a join tree. -/
def JoinTreeNode.interiorCount : JoinTreeNode → ℕ
  | .base _ _ => 0
  | .join l r _ _ => l.interiorCount + r.interiorCount + 1

/-- The leaf identifiers of a join tree, from left to right. -/
def JoinTreeNode.leafIdents : JoinTreeNode → List String
  | .base t _ => [t.identifier]
  | .join l r _ _ => l.leafIdents ++ r.leafIdents

/-- The leaf identifiers in the order in which `generateLeadingHintContent`
renders them (outer subtree first). -/
def leadingIdents (t : JoinTreeNode)
    (operator_assignment : Option PhysicalOperatorAssignment) : List String :=
  match t with
  | .base tab _ => [tab.identifier]
  | .join left right annot card =>
    let li := leadingIdents left operator_assignment
    let ri := leadingIdents right operator_assignment
    if innerIsLeft (.join left right annot card) operator_assignment then ri ++ li else li ++ ri

/-- Maximal parenthesis nesting depth of a string (`d` is the current depth,
`m` the maximum seen so far). -/
def nestingDepthAux : List Char → ℕ → ℕ → ℕ
  | [], _, m => m
  | c :: cs, d, m =>
    if c = '(' then nestingDepthAux cs (d + 1) (max m (d + 1))
    else if c = ')' then nestingDepthAux cs (d - 1) m
    else nestingDepthAux cs d m

/-- Maximal parenthesis nesting depth of a string. -/
def nestingDepth (s : String) : ℕ := nestingDepthAux s.data 0 0

end PostBound

namespace PostBound

/-- All leaf identifiers of a join tree are usable in a `Leading` hint:
non-empty and free of parentheses and blanks. -/
def goodIdents (t : JoinTreeNode) : Prop :=
  ∀ s ∈ t.leafIdents, s.data ≠ [] ∧ ∀ ch ∈ s.data, isFence ch = false

/-- The two-table join `R ⋈ S` with cardinality estimates 100 and 10000, no
directional annotation and no per-join operator. -/
def nodeRS : JoinTreeNode :=
  .join (.base ⟨"R", ""⟩ (.val 100)) (.base ⟨"S", ""⟩ (.val 10000)) .noAnnot .nan

/-- A global assignment enabling only the hash join. -/
def hashOnlyOA : PhysicalOperatorAssignment := ⟨[], [], [(.joinOp .hashJoin, true)]⟩

/-- A global assignment enabling only the (symmetric) sort-merge join. -/
def mergeOnlyOA : PhysicalOperatorAssignment := ⟨[], [], [(.joinOp .sortMergeJoin, true)]⟩

/-- A global assignment enabling both the hash join and the sort-merge join. -/
def hashMergeOA : PhysicalOperatorAssignment :=
  ⟨[], [], [(.joinOp .hashJoin, true), (.joinOp .sortMergeJoin, true)]⟩

/-- A balanced join tree over eight tables without cardinality estimates. -/
def c8Tree : JoinTreeNode :=
  .join
    (.join (.join (.base ⟨"A", ""⟩ .nan) (.base ⟨"B", ""⟩ .nan) .noAnnot .nan)
      (.join (.base ⟨"C", ""⟩ .nan) (.base ⟨"D", ""⟩ .nan) .noAnnot .nan) .noAnnot .nan)
    (.join (.join (.base ⟨"E", ""⟩ .nan) (.base ⟨"F", ""⟩ .nan) .noAnnot .nan)
      (.join (.base ⟨"G", ""⟩ .nan) (.base ⟨"H", ""⟩ .nan) .noAnnot .nan) .noAnnot .nan)
    .noAnnot .nan

/-- The two-table join order wrapped for `generatePgJoinOrderHint`. -/
def treeRS : LogicalJoinTree := ⟨nodeRS⟩

/-- A single-table join order. -/
def c10Tree : LogicalJoinTree := ⟨.base ⟨"R", ""⟩ .nan⟩

/-- An EXPLAIN leaf tagged as the outer child of its parent. -/
def c2OuterNode : PgExplainNode :=
  .mk (mkExplainInfo
    { nodeType := some "Seq Scan", relationName := some "a",
      parentRelationship := some "Outer" }) []

/-- An EXPLAIN leaf tagged as the inner child of its parent. -/
def c2InnerNode : PgExplainNode :=
  .mk (mkExplainInfo
    { nodeType := some "Index Scan", relationName := some "b",
      parentRelationship := some "Inner" }) []

/-- A Hash Join EXPLAIN node whose `"Inner"`-tagged child is the second one. -/
def c2HashNode : PgExplainNode :=
  .mk (mkExplainInfo { nodeType := some "Hash Join" }) [c2OuterNode, c2InnerNode]

/-- The normalized form of `c2OuterNode`. -/
def c2OuterPlan : QueryExecutionPlan := .mk (mkQepInfo c2OuterNode) none none

/-- The normalized form of `c2InnerNode`. -/
def c2InnerPlan : QueryExecutionPlan := .mk (mkQepInfo c2InnerNode) none none

/-- The EXPLAIN ANALYZE node of the spec's concrete normalization example:
`Actual Total Time` 1500, `Actual Rows` 10, `Actual Loops` 4,
`Workers Launched` 2, two children. -/
def c6HashNode : PgExplainNode :=
  .mk (mkExplainInfo
    { nodeType := some "Hash Join", actualTotalTime := some 1500,
      actualRows := some 10, actualLoops := some 4, workersLaunched := some 2 })
    [.mk (mkExplainInfo { nodeType := some "Seq Scan", relationName := some "a" }) [],
     .mk (mkExplainInfo { nodeType := some "Seq Scan", relationName := some "b" }) []]

/-- A hinted query over nine tables whose hint block is non-empty and whose
preparatory statements are empty. -/
def c4Query : PgQuery := ⟨some ⟨"", "/*+ SeqScan(a) */"⟩, 9⟩

/-- A tracked GeQO snapshot: enabled with threshold 8. -/
def c4Tracked : GeqoState := ⟨true, 8⟩

theorem wordsAux_split {c : Char} (hc : isFence c = true) :
    ∀ (l1 cur l2 : List Char),
      wordsAux cur (l1 ++ c :: l2) = wordsAux cur l1 ++ wordsAux [] l2 := by
  intro l1
  induction l1 with
  | nil =>
    intro cur l2
    by_cases h : cur = [] <;> simp [wordsAux, hc, h]
  | cons a as ih =>
    intro cur l2
    by_cases ha : isFence a
    · by_cases h : cur = [] <;> simp [wordsAux, ha, h, ih]
    · simp [wordsAux, ha, ih]

theorem wordsAux_no_fence :
    ∀ (w cur l : List Char), (∀ ch ∈ w, isFence ch = false) →
      wordsAux cur (w ++ l) = wordsAux (w.reverse ++ cur) l := by
  intro w
  induction w with
  | nil => intro cur l _; simp
  | cons a as ih =>
    intro cur l hw
    have ha : isFence a = false := hw a (List.mem_cons_self a as)
    simp only [List.cons_append, wordsAux, ha, Bool.false_eq_true, if_false, List.append_eq]
    rw [ih (a :: cur) l (fun ch hch => hw ch (List.mem_cons_of_mem a hch))]
    simp

theorem words_eq_single (s : String) (hne : s.data ≠ [])
    (hs : ∀ ch ∈ s.data, isFence ch = false) : words s = [s] := by
  obtain ⟨d⟩ := s
  rw [words, show ({ data := d } : String).data = d ++ [] by simp,
    wordsAux_no_fence d [] [] (by simpa using hs), wordsAux]
  simp only [String.ext_iff] at hne ⊢
  simp [List.reverse_eq_nil_iff, hne]

theorem words_render_join (o i : String) :
    words ("(" ++ o ++ " " ++ i ++ ")") = words o ++ words i := by
  have hdata : ("(" ++ o ++ " " ++ i ++ ")").data
      = '(' :: (o.data ++ ' ' :: (i.data ++ [')'])) := by
    simp [String.data_append]
  rw [words, hdata, wordsAux]
  norm_num [show isFence '(' = true from rfl]
  rw [wordsAux_split (show isFence ' ' = true from rfl)]
  rw [show i.data ++ [')'] = i.data ++ ')' :: [] from rfl,
      wordsAux_split (show isFence ')' = true from rfl)]
  simp [words, wordsAux]

theorem words_leading (t : JoinTreeNode) (oa : Option PhysicalOperatorAssignment)
    (h : goodIdents t) :
    words (generateLeadingHintContent t oa) = leadingIdents t oa := by
  induction t with
  | base tab card =>
    have hm := h tab.identifier (by simp [JoinTreeNode.leafIdents])
    exact words_eq_single _ hm.1 hm.2
  | join l r annot card ihl ihr =>
    have hl : goodIdents l := fun s hs => h s (by simp [JoinTreeNode.leafIdents, hs])
    have hr : goodIdents r := fun s hs => h s (by simp [JoinTreeNode.leafIdents, hs])
    cases hil : innerIsLeft (.join l r annot card) oa
    · simp only [generateLeadingHintContent, leadingIdents, hil, Bool.false_eq_true, if_false]
      rw [words_render_join, ihl hl, ihr hr]
    · simp only [generateLeadingHintContent, leadingIdents, hil, if_true]
      rw [words_render_join, ihl hl, ihr hr]

theorem leadingIdents_perm (t : JoinTreeNode) (oa : Option PhysicalOperatorAssignment) :
    (leadingIdents t oa).Perm t.leafIdents := by
  induction t with
  | base tab card => simp [leadingIdents, JoinTreeNode.leafIdents]
  | join l r annot card ihl ihr =>
    cases hil : innerIsLeft (.join l r annot card) oa
    · simp only [leadingIdents, JoinTreeNode.leafIdents, hil, Bool.false_eq_true, if_false]
      exact ihl.append ihr
    · simp only [leadingIdents, JoinTreeNode.leafIdents, hil, if_true]
      exact List.perm_append_comm.trans (ihl.append ihr)

theorem count_leading (t : JoinTreeNode) (oa : Option PhysicalOperatorAssignment)
    (h : goodIdents t) :
    (generateLeadingHintContent t oa).data.count '(' = t.interiorCount := by
  induction t with
  | base tab card =>
    have hm := h tab.identifier (by simp [JoinTreeNode.leafIdents])
    simp only [generateLeadingHintContent, JoinTreeNode.interiorCount]
    refine List.count_eq_zero.mpr (fun hmem => ?_)
    have := hm.2 '(' hmem
    simp [isFence] at this
  | join l r annot card ihl ihr =>
    have hl : goodIdents l := fun s hs => h s (by simp [JoinTreeNode.leafIdents, hs])
    have hr : goodIdents r := fun s hs => h s (by simp [JoinTreeNode.leafIdents, hs])
    have hcl := ihl hl
    have hcr := ihr hr
    cases hil : innerIsLeft (.join l r annot card) oa
    · simp only [generateLeadingHintContent, JoinTreeNode.interiorCount, hil,
        Bool.false_eq_true, if_false]
      simp [String.data_append, List.count_append, List.count_cons, hcl, hcr]
    · simp only [generateLeadingHintContent, JoinTreeNode.interiorCount, hil, if_true]
      simp [String.data_append, List.count_append, List.count_cons, hcl, hcr]
      omega

theorem wordsAux_fence_cons (cur : List Char) (c : Char) (hc : isFence c = true)
    (l : List Char) :
    wordsAux cur (c :: l)
      = if cur = [] then wordsAux [] l else String.mk cur.reverse :: wordsAux [] l := by
  simp [wordsAux, hc]

theorem words_leading_directive (s : String) :
    words ("Leading(" ++ s ++ ")") = "Leading" :: words s := by
  have hdata : ("Leading(" ++ s ++ ")").data
      = "Leading".data ++ ('(' :: (s.data ++ [')'])) := by
    simp [String.data_append]
  rw [words, hdata, wordsAux_no_fence "Leading".data [] _ (by decide), List.append_nil,
    wordsAux_fence_cons _ '(' (by decide)]
  rw [show s.data ++ [')'] = s.data ++ ')' :: [] from rfl,
    wordsAux_split (show isFence ')' = true from rfl)]
  simp [words, wordsAux]

theorem count_leading_directive (s : String) :
    ("Leading(" ++ s ++ ")").data.count '(' = s.data.count '(' + 1 := by
  have hdata : ("Leading(" ++ s ++ ")").data
      = "Leading".data ++ ('(' :: (s.data ++ [')'])) := by
    simp [String.data_append]
  rw [hdata]
  simp [List.count_append, List.count_cons]

end PostBound

namespace PostBound

/-- Claim C9: fragment merging is an identity with the empty fragments and an
order-preserving deduplicating union — `merge(f, empty) = f` for every `f`,
and merging `["A","B"]` with `["B","C"]` yields exactly `["A","B","C"]`, for
the settings and the hints sequence alike. -/
theorem c9_merge_identity_and_dedup :
    (∀ f : HintParts, f.merge_with HintParts.empty = f) ∧
    HintParts.merge_with ⟨["A", "B"], ["A", "B"]⟩ ⟨["B", "C"], ["B", "C"]⟩
      = ⟨["A", "B", "C"], ["A", "B", "C"]⟩ := by
  constructor
  · intro f
    simp [HintParts.merge_with, HintParts.empty]
  · rfl

/-- Claim C10: for every join order spanning fewer than two tables, join-order
hint generation returns the input query unchanged paired with an absent
hint-parts value — no `Leading` hint is produced. -/
theorem c10_single_table_no_hint (query : SqlQuery) (join_order : LogicalJoinTree)
    (oa : Option PhysicalOperatorAssignment) (h : join_order.length < 2) :
    generatePgJoinOrderHint query join_order oa = (query, none) := by
  simp [generatePgJoinOrderHint, h]

/-- Witness for `c10_single_table_no_hint`: a single base table. -/
theorem c10_witness :
    c10Tree.length < 2 ∧
      generatePgJoinOrderHint ⟨"SELECT * FROM R"⟩ c10Tree none = (⟨"SELECT * FROM R"⟩, none) :=
  ⟨by decide, c10_single_table_no_hint _ _ _ (by decide)⟩

/-- Claim C7 counterexample: a boolean system-specific setting is emitted as
the bare Python literal `True`, not as the quoted `'on'` the claim states. -/
theorem c7_counterexample :
    generatePgParameterHints ⟨[], [], [("geqo", .pyBool true)]⟩
      = ⟨["SET geqo = True;"], []⟩ ∧
    ("SET geqo = True;" : String) ≠ "SET geqo = 'on';" := by
  exact ⟨rfl, by decide⟩

/-- Claim C7 (amended): every setting is emitted as `SET <key> = <escaped>;`
where numerics render as bare literals and strings are single-quoted, but a
boolean is caught by the numeric `isinstance` check (Python's `bool` being an
`int` subtype) and renders as the bare literal `True`/`False`; the dedicated
`TRUE`/`FALSE` branch is unreachable. -/
theorem c7_setting_escape_by_type :
    (∀ (key : String) (v : PyValue),
      (generatePgParameterHints ⟨[], [], [(key, v)]⟩).settings
        = ["SET " ++ key ++ " = " ++ escapeSetting v ++ ";"]) ∧
    (∀ n : ℤ, escapeSetting (.pyInt n) = toString n) ∧
    (∀ q : ℚ, escapeSetting (.pyFloat q) = toString q) ∧
    (∀ b : Bool, escapeSetting (.pyBool b) = if b then "True" else "False") ∧
    (∀ s : String, escapeSetting (.pyStr s) = "'" ++ s ++ "'") := by
  refine ⟨fun key v => rfl, fun n => rfl, fun q => rfl, fun b => ?_, fun s => rfl⟩
  cases b <;> rfl

/-- Claim C3 (code bug): a table assigned the `IndexScan` operator is emitted
with the verb `IndexOnlyScan`, because the static verb table maps both
`IndexScan` and `IndexOnlyScan` to `"IndexOnlyScan"`; the other scan verbs
match the claim. -/
theorem c3_index_scan_emits_index_only_scan :
    generatePgOperatorHints [] [(⟨"orders", ""⟩, ⟨.indexScan⟩)] []
      = ⟨[], ["IndexOnlyScan(orders)", ""]⟩ ∧
    PostgresOptimizerHints (.scanOp .indexScan) = "IndexOnlyScan" ∧
    PostgresOptimizerHints (.scanOp .sequentialScan) = "SeqScan" ∧
    PostgresOptimizerHints (.scanOp .indexOnlyScan) = "IndexOnlyScan" ∧
    PostgresOptimizerHints (.scanOp .bitmapScan) = "BitmapScan" ∧
    ("IndexOnlyScan(orders)" : String) ≠ "IndexScan(orders)" := by
  exact ⟨rfl, rfl, rfl, rfl, rfl, by decide⟩

/-- Claim C1 (code bug): with cardinalities 100 for `R` and 10000 for `S`, the
rendered ordering is `"(S R)"` in the build-probe-asymmetric case *and* in the
non-asymmetric case — the smaller-estimate child becomes the inner relation in
both branches, although the source's own comment prescribes the smaller child
as the outer relation for non-asymmetric operators. -/
theorem c1_smaller_inner_in_both_branches :
    generateLeadingHintContent nodeRS (some mergeOnlyOA) = "(S R)" ∧
    generateLeadingHintContent nodeRS (some hashOnlyOA) = "(S R)" ∧
    isHashJoin nodeRS (some mergeOnlyOA) = false ∧
    isHashJoin nodeRS (some hashOnlyOA) = true ∧
    (generatePgJoinOrderHint ⟨"SELECT * FROM R, S"⟩ treeRS (some hashOnlyOA)).2
      = some ⟨[], ["Leading((S R))"]⟩ := by
  exact ⟨rfl, rfl, rfl, rfl, rfl⟩

/-- Claim C5: the build-probe test prefers a per-join assignment (true iff it
is the hash join), falls back to "hash join is the sole globally enabled join
operator", tests the node's own annotation the same way when no assignment is
supplied, and answers false absent all three signals; in particular a
hash-only global assignment yields true and adding the sort-merge join yields
false. -/
theorem c5_is_hash_join_cases :
    (∀ (node : JoinTreeNode) (oa : PhysicalOperatorAssignment) (sel : JoinOperAssign),
      oa.lookupJoin node.tables = some sel →
        isHashJoin node (some oa) = decide (sel.operator = .hashJoin)) ∧
    (∀ (node : JoinTreeNode) (oa : PhysicalOperatorAssignment),
      oa.lookupJoin node.tables = none →
        isHashJoin node (some oa)
          = (decide (oa.globalJoinOps.length = 1)
              && decide (JoinOperator.hashJoin ∈ oa.globalJoinOps))) ∧
    isHashJoin nodeRS (some hashOnlyOA) = true ∧
    isHashJoin nodeRS (some hashMergeOA) = false ∧
    (∀ (node : JoinTreeNode) (a : JoinOperAssign), node.nodeAnnot = .physMeta (some a) →
        isHashJoin node none = decide (a.operator = .hashJoin)) ∧
    (∀ node : JoinTreeNode, node.nodeAnnot = .noAnnot → isHashJoin node none = false) := by
  refine ⟨?_, ?_, rfl, rfl, ?_, ?_⟩
  · intro node oa sel hsel
    simp [isHashJoin, hsel]
  · intro node oa hnone
    simp [isHashJoin, hnone]
  · intro node a ha
    simp [isHashJoin, ha]
  · intro node ha
    simp [isHashJoin, ha]

/-- Witness for `c5_is_hash_join_cases`: the global fallback applied to the
two-table join under the hash-only assignment. -/
theorem c5_witness :
    isHashJoin nodeRS (some hashOnlyOA)
      = (decide (hashOnlyOA.globalJoinOps.length = 1)
          && decide (JoinOperator.hashJoin ∈ hashOnlyOA.globalJoinOps)) :=
  c5_is_hash_join_cases.2.1 nodeRS hashOnlyOA rfl

/-- Claim C4 counterexample: a hinted nine-table query under an enabled
snapshot with threshold 8 receives the forced-disable directive, and when its
execution fails neither restore directive is issued — the threshold directive
in particular never appears, although the claim demands an unconditional
restore after failures as well. -/
theorem c4_counterexample :
    executeQueryGeqoDirectives c4Tracked c4Query false false .failure
      = [.setGeqo false] ∧
    GeqoDirective.setGeqoThreshold 8 ∉
      executeQueryGeqoDirectives c4Tracked c4Query false false .failure ∧
    GeqoDirective.setGeqoThreshold 8 ∈ restoreGeqoStateDirectives c4Tracked := by
  exact ⟨rfl, by decide, by decide⟩

/-- Claim C4 (amended): the two restore directives from the tracked snapshot
are re-issued exactly on the successful, non-cache-hit execution path; on a
database error (or a cache hit) only the preparation directives are issued and
no restore happens. -/
theorem c4_restore_only_on_success (tracked : GeqoState) (query : PgQuery)
    (cache_enabled cache_hit : Bool) (outcome : QueryOutcome) :
    executeQueryGeqoDirectives tracked query cache_enabled cache_hit outcome
      = prepareQueryGeqoDirectives tracked query ++
          (if outcome = .success ∧ ¬(cache_enabled = true ∧ cache_hit = true)
           then restoreGeqoStateDirectives tracked else []) := by
  cases outcome <;> cases cache_enabled <;> cases cache_hit <;>
    simp [executeQueryGeqoDirectives]

end PostBound

namespace PostBound

/-- Claim C2 counterexample: for a `Hash Join` node whose `"Inner"`-tagged
child is the second one, normalization picks that tagged child itself as
`inner_child` (node type `Index Scan`), not the other child as the claim
requires for build-probe-asymmetric joins. -/
theorem c2_counterexample :
    ((asQueryExecutionPlan c2HashNode).toOption.bind QueryExecutionPlan.inner_child).map
        (fun c => c.info.node_type) = some (some "Index Scan") ∧
    c2HashNode.info.node_type = some "Hash Join" ∧
    c2HashNode.children.map (fun c => c.info.parent_relationship)
      = [some "Outer", some "Inner"] ∧
    some (some "Index Scan") ≠ some (some ("Seq Scan" : String)) := by
  exact ⟨rfl, rfl, rfl, by decide⟩

/-- Claim C2 (amended): with exactly two children, `inner_child` is the first
normalized child precisely when the first child's parent-relationship tag is
`"Inner"` and the node is not a `"Hash Join"`; in every other case — including
a hash join whose tagged child comes second — the second child is chosen, so
the hash-join inversion takes effect only when the tagged child is first. -/
theorem c2_inner_child_selection (info : PgExplainInfo)
    (first_child second_child : PgExplainNode) (p1 p2 : QueryExecutionPlan)
    (h1 : asQueryExecutionPlan first_child = .ok p1)
    (h2 : asQueryExecutionPlan second_child = .ok p2) :
    asQueryExecutionPlan (.mk info [first_child, second_child])
      = .ok (.mk (mkQepInfo (.mk info [first_child, second_child])) (some [p1, p2])
          (some (if first_child.info.parent_relationship = some "Inner"
                    ∧ info.node_type ≠ some "Hash Join"
                 then p1 else p2))) := by
  simp only [asQueryExecutionPlan, h1, h2]
  rfl

/-- Witness for `c2_inner_child_selection`: the hash-join node with the tag on
the second child normalizes with that second child as `inner_child`. -/
theorem c2_witness :
    asQueryExecutionPlan c2HashNode
      = .ok (.mk (mkQepInfo c2HashNode) (some [c2OuterPlan, c2InnerPlan])
          (some c2InnerPlan)) := by
  have h := c2_inner_child_selection (mkExplainInfo { nodeType := some "Hash Join" })
    c2OuterNode c2InnerNode c2OuterPlan c2InnerPlan rfl rfl
  rw [show (if c2OuterNode.info.parent_relationship = some "Inner"
        ∧ (mkExplainInfo { nodeType := some "Hash Join" }).node_type ≠ some "Hash Join"
      then c2OuterPlan else c2InnerPlan) = c2InnerPlan from rfl] at h
  exact h

/-- Claim C6 counterexample: a node without a `Workers Launched` field
normalizes with the NaN sentinel as its worker count, not with the claimed
default of 0 — after the `+ 1` adjustment the parallel worker count is NaN,
not 1. -/
theorem c6_counterexample :
    (mkExplainInfo { nodeType := some "Seq Scan" }).parallel_workers = .nan ∧
    (asQueryExecutionPlan (.mk (mkExplainInfo { nodeType := some "Seq Scan" }) [])).map
        (fun p => p.info.parallel_workers) = .ok .nan ∧
    PgFloat.nan ≠ .val (0 + 1) := by
  exact ⟨rfl, rfl, by decide⟩

/-- Claim C6 (amended): missing cost, cardinality and time fields normalize to
the NaN sentinel and a missing loop count defaults to 1, but a missing
worker-launch count also becomes NaN (not 0), so the adjusted parallel worker
count is NaN; the reported milliseconds are divided by 1000, and the concrete
example node yields execution time 1.5, true cardinality 40 and 3 parallel
workers. -/
theorem c6_field_defaults :
    (∀ d : ExplainFields, d.totalCost = none → (mkExplainInfo d).cost = .nan) ∧
    (∀ d : ExplainFields, d.planRows = none → (mkExplainInfo d).cardinality_estimate = .nan) ∧
    (∀ d : ExplainFields, d.actualTotalTime = none → (mkExplainInfo d).execution_time = .nan) ∧
    (∀ d : ExplainFields, d.actualRows = none → (mkExplainInfo d).true_cardinality = .nan) ∧
    (∀ d : ExplainFields, d.actualLoops = none → (mkExplainInfo d).loops = 1) ∧
    (∀ d : ExplainFields, d.workersLaunched = none →
      (mkExplainInfo d).parallel_workers = .nan
        ∧ (mkExplainInfo d).parallel_workers.add1 = .nan) ∧
    (asQueryExecutionPlan c6HashNode).map
        (fun p => (p.info.execution_time, p.info.true_cardinality, p.info.parallel_workers))
      = .ok (.val (1500 / 1000), .val (10 * 4), .val (2 + 1)) ∧
    ((1500 / 1000 : ℚ) = 3 / 2 ∧ (10 * 4 : ℚ) = 40 ∧ (2 + 1 : ℚ) = 3) := by
  refine ⟨?_, ?_, ?_, ?_, ?_, ?_, rfl, by norm_num⟩ <;>
    intro d hd <;>
    simp [mkExplainInfo, hd, PgFloat.div1000, PgFloat.add1]

/-- Witness for `c6_field_defaults`: the defaults evaluated on a record with
no analyze fields. -/
theorem c6_witness :
    (mkExplainInfo { nodeType := some "Seq Scan" }).loops = 1 ∧
    (mkExplainInfo { nodeType := some "Seq Scan" }).parallel_workers = .nan ∧
    (mkExplainInfo { nodeType := some "Seq Scan" }).parallel_workers.add1 = .nan :=
  ⟨c6_field_defaults.2.2.2.2.1 _ rfl,
   (c6_field_defaults.2.2.2.2.2.1 _ rfl).1,
   (c6_field_defaults.2.2.2.2.2.1 _ rfl).2⟩

/-- Claim C8 counterexample: for a balanced eight-table join tree the rendered
directive is `Leading((((A B) (C D)) ((E F) (G H))))` with nesting depth 4
(depth 3 inside the `Leading` wrapper), while the tree has 7 interior join
nodes — the nesting depth does not equal the number of interior nodes. -/
theorem c8_counterexample :
    generatePgJoinOrderHint ⟨"SELECT 1"⟩ ⟨c8Tree⟩ none
      = (⟨"SELECT 1"⟩, some ⟨[], ["Leading((((A B) (C D)) ((E F) (G H))))"]⟩) ∧
    nestingDepth "Leading((((A B) (C D)) ((E F) (G H))))" = 4 ∧
    nestingDepth "(((A B) (C D)) ((E F) (G H)))" = 3 ∧
    c8Tree.interiorCount = 7 ∧ (4 ≠ 7 ∧ 3 ≠ 7) := by
  exact ⟨rfl, rfl, rfl, rfl, by decide⟩

/-- Claim C8 (amended): for every join order spanning at least two tables with
well-formed leaf identifiers, the produced `Leading` directive contains one
opening parenthesis per interior join node plus one for the `Leading` wrapper
itself, and its words are exactly the word `Leading` followed by each leaf
table identifier exactly once (a permutation of the leaf identifiers). -/
theorem c8_leading_structure (query : SqlQuery) (join_order : LogicalJoinTree)
    (oa : Option PhysicalOperatorAssignment)
    (htab : 2 ≤ join_order.length) (hids : goodIdents join_order.root) :
    generatePgJoinOrderHint query join_order oa
      = (query,
         some ⟨[], ["Leading(" ++ generateLeadingHintContent join_order.root oa ++ ")"]⟩) ∧
    ("Leading(" ++ generateLeadingHintContent join_order.root oa ++ ")").data.count '('
      = join_order.root.interiorCount + 1 ∧
    (words ("Leading(" ++ generateLeadingHintContent join_order.root oa ++ ")")).Perm
      ("Leading" :: join_order.root.leafIdents) := by
  refine ⟨?_, ?_, ?_⟩
  · simp [generatePgJoinOrderHint, Nat.not_lt.mpr htab]
  · rw [count_leading_directive, count_leading _ _ hids]
  · rw [words_leading_directive, words_leading _ _ hids]
    exact (leadingIdents_perm _ _).cons _

/-- Witness for `c8_leading_structure`: the two-table join order under the
hash-only assignment. -/
theorem c8_witness :
    generatePgJoinOrderHint ⟨"SELECT * FROM R, S"⟩ treeRS (some hashOnlyOA)
      = (⟨"SELECT * FROM R, S"⟩,
         some ⟨[], ["Leading(" ++ generateLeadingHintContent treeRS.root (some hashOnlyOA) ++ ")"]⟩) ∧
    ("Leading(" ++ generateLeadingHintContent treeRS.root (some hashOnlyOA) ++ ")").data.count '('
      = treeRS.root.interiorCount + 1 ∧
    (words ("Leading(" ++ generateLeadingHintContent treeRS.root (some hashOnlyOA) ++ ")")).Perm
      ("Leading" :: treeRS.root.leafIdents) :=
  c8_leading_structure ⟨"SELECT * FROM R, S"⟩ treeRS (some hashOnlyOA) (by decide)
    (by unfold goodIdents; decide)

end PostBound
